import Mathlib

/-!
# PoseDisplay (rviz, `src/default_plugin/pose_display.cpp`)

A shallow embedding of `rviz::PoseDisplay`: the display object is a record, every member
function is a pure function from the record before the call to the record after it.
Collaborators that live outside the file (the tf client, the Ogre quaternion product, the
frame converters of `rviz/common.h`) are fields of a `Services` record handed to the
functions that call them.

Scalars: the display only stores floats and hands them on, it never computes with them, so a
stored `float` is modelled by the rational it denotes.
-/

namespace rviz

/-! ## Values -/

/-- Three scalars, the shape shared by `Ogre::Vector3` and `btVector3`. -/
structure Vector3 where
  x : ℚ
  y : ℚ
  z : ℚ
deriving DecidableEq, Repr

/-- Four scalars in Ogre's constructor order `(w, x, y, z)`; also used for `btQuaternion`. -/
structure Quaternion where
  w : ℚ
  x : ℚ
  y : ℚ
  z : ℚ
deriving DecidableEq, Repr

/-- The constant `Ogre::Quaternion::IDENTITY`. -/
def Quaternion.IDENTITY : Quaternion := ⟨1, 0, 0, 0⟩

/-- The rviz `Color` value with its three members. -/
structure Color where
  r_ : ℚ
  g_ : ℚ
  b_ : ℚ
deriving DecidableEq, Repr

/-- Message header: `std_msgs/Header` (the stamp is an opaque instant). -/
structure Header where
  stamp : Nat
  frame_id : String
deriving DecidableEq, Repr

/-- Message body: `geometry_msgs/Pose`. -/
structure Pose where
  position : Vector3
  orientation : Quaternion
deriving DecidableEq, Repr

/-- Message: `geometry_msgs/PoseStamped`. -/
structure PoseStamped where
  header : Header
  pose : Pose
deriving DecidableEq, Repr

/-- The tf value `tf::Stamped<tf::Pose>`. `origin` is what `getOrigin()` returns and
`rotation` is the quaternion `getBasis().getRotation(..)` reads back. -/
structure StampedPose where
  frame_id_ : String
  stamp_ : Nat
  origin : Vector3
  rotation : Quaternion
deriving DecidableEq, Repr

/-! ## Collaborators -/

/-- Functions the display calls but does not define.

* `robotToOgreVec`, `robotToOgreQuat`, `ogreToRobotQuat`: the overloads of `robotToOgre` and
  `ogreToRobot` from `rviz/common.h`.
* `quatMul`: `Ogre::Quaternion::operator*`.
* `basisRotation`: the quaternion read back by `getBasis().getRotation` from the basis that
  `tf::poseStampedMsgToTF` builds out of the message orientation.
* `transformPose target pose`: `tf::Transformer::transformPose(target, pose, pose)`; `none`
  stands for a thrown `tf::TransformException`, in which case the output argument is left as
  it was. -/
structure Services where
  robotToOgreVec : Vector3 → Vector3
  robotToOgreQuat : Quaternion → Quaternion
  ogreToRobotQuat : Quaternion → Quaternion
  quatMul : Quaternion → Quaternion → Quaternion
  basisRotation : Quaternion → Quaternion
  transformPose : String → StampedPose → Option StampedPose

/-- The conversion `tf::poseStampedMsgToTF`: stamp and frame id are copied from the header,
the origin from the position, the basis from the orientation. -/
def poseStampedMsgToTF (sv : Services) (msg : PoseStamped) : StampedPose :=
  { frame_id_ := msg.header.frame_id
    stamp_ := msg.header.stamp
    origin := msg.pose.position
    rotation := sv.basisRotation msg.pose.orientation }

/-! ## The display object -/

/-- Modelled from the spec: the enumeration `PoseDisplay::Shape` of `pose_display.h` (absent
from the sources), two variants in the order Arrow, Axes. -/
def Arrow : Int := 0

/-- Modelled from the spec: second variant of `PoseDisplay::Shape`, see `Arrow`. -/
def Axes : Int := 1

/-- The member `sub_` while it is subscribed: topic and queue depth of the request. -/
structure Subscription where
  topic : String
  queue_size : Nat
deriving DecidableEq, Repr

/-- The member `tf_filter_` (`tf::MessageFilter`): target frame, queue bound and the
messages it is holding back. -/
structure MessageFilter where
  target_frame : String
  queue_size : Nat
  messages : List PoseStamped
deriving DecidableEq, Repr

/-- The handle `arrow_` (`ogre_tools::Arrow`): visibility of its scene node, the colour last
pushed with `setColor` (none before the first push) and the dimensions last pushed, in the
argument order `shaft_length, shaft_radius, head_length, head_radius`. -/
structure ArrowHandle where
  visible : Bool
  color : Option (ℚ × ℚ × ℚ × ℚ)
  dims : ℚ × ℚ × ℚ × ℚ
deriving DecidableEq, Repr

/-- The handle `axes_` (`ogre_tools::Axes`): visibility, colour last pushed, dimensions last
pushed in the order `length, radius`, and the orientation last pushed (none before the
first push). -/
structure AxesHandle where
  visible : Bool
  color : Option (ℚ × ℚ × ℚ × ℚ)
  dims : ℚ × ℚ
  orientation : Option Quaternion
deriving DecidableEq, Repr

/-- One `ROS_ERROR` line of `incomingMessage`: display name, message frame, fixed frame. -/
structure TransformError where
  name : String
  frame : String
  fixed_frame : String
deriving DecidableEq, Repr

/-- Members inherited from the base class `rviz::Display` that this file reads.
`property_manager_` records only whether the pointer is set. -/
structure Display where
  name_ : String
  enabled_ : Bool
  fixed_frame_ : String
  property_manager_ : Bool
deriving DecidableEq, Repr

/-- The display object. After the members of the class come the scene node's transform and
five observation fields: the number of `causeRender` calls, the `propertyChanged` calls, the
shape properties registered with the property manager, the `transformPose` calls (target
frame and input pose) and the error lines written. -/
structure PoseDisplay extends Display where
  topic_ : String
  color_ : Color
  alpha_ : ℚ
  current_shape_ : Int
  head_radius_ : ℚ
  head_length_ : ℚ
  shaft_radius_ : ℚ
  shaft_length_ : ℚ
  axes_length_ : ℚ
  axes_radius_ : ℚ
  sub_ : Option Subscription
  tf_filter_ : MessageFilter
  arrow_ : ArrowHandle
  axes_ : AxesHandle
  scene_position : Vector3
  scene_orientation : Quaternion
  renders : Nat
  property_changes : List String
  shape_properties : List String
  tf_requests : List (String × StampedPose)
  errors : List TransformError
deriving DecidableEq, Repr

namespace PoseDisplay

/-! ### Primitive effects -/

/-- The call `causeRender()`. -/
def causeRender (s : PoseDisplay) : PoseDisplay :=
  { s with renders := s.renders + 1 }

/-- The call `propertyChanged(p)`, recorded under the display name of the property. -/
def propertyChanged (s : PoseDisplay) (p : String) : PoseDisplay :=
  { s with property_changes := s.property_changes ++ [p] }

/-- The call `arrow_->getSceneNode()->setVisible(v)`. -/
def setArrowVisible (s : PoseDisplay) (v : Bool) : PoseDisplay :=
  { s with arrow_ := { s.arrow_ with visible := v } }

/-- The call `axes_->getSceneNode()->setVisible(v)`. -/
def setAxesVisible (s : PoseDisplay) (v : Bool) : PoseDisplay :=
  { s with axes_ := { s.axes_ with visible := v } }

/-- The call `arrow_->setColor(r, g, b, a)`. -/
def arrowSetColor (s : PoseDisplay) (r g b a : ℚ) : PoseDisplay :=
  { s with arrow_ := { s.arrow_ with color := some (r, g, b, a) } }

/-- The call `axes_->setColor(r, g, b, a)`. -/
def axesSetColor (s : PoseDisplay) (r g b a : ℚ) : PoseDisplay :=
  { s with axes_ := { s.axes_ with color := some (r, g, b, a) } }

/-- The call `arrow_->set(shaft_length, shaft_radius, head_length, head_radius)`. -/
def arrowSet (s : PoseDisplay) (sl sr hl hr : ℚ) : PoseDisplay :=
  { s with arrow_ := { s.arrow_ with dims := (sl, sr, hl, hr) } }

/-- The call `axes_->set(length, radius)`. -/
def axesSet (s : PoseDisplay) (l r : ℚ) : PoseDisplay :=
  { s with axes_ := { s.axes_ with dims := (l, r) } }

/-- The switch on `current_shape_` that `setShape` and `onEnable` share: the scene node of
the current glyph is made visible, nothing happens for a value outside the enumeration. -/
def showCurrentShape (s : PoseDisplay) : PoseDisplay :=
  if s.current_shape_ = Arrow then s.setArrowVisible true
  else if s.current_shape_ = Axes then s.setAxesVisible true
  else s

/-! ### Member functions -/

/-- Lines 90-93. -/
def clear (s : PoseDisplay) : PoseDisplay :=
  { s with tf_filter_ := { s.tf_filter_ with messages := [] } }

/-- Lines 196-204. -/
def subscribe (s : PoseDisplay) : PoseDisplay :=
  if !s.enabled_ then s
  else { s with sub_ := some { topic := s.topic_, queue_size := 5 } }

/-- Lines 206-209. -/
def unsubscribe (s : PoseDisplay) : PoseDisplay :=
  { s with sub_ := none }

/-- Lines 95-104. -/
def setTopic (s : PoseDisplay) (topic : String) : PoseDisplay :=
  let s := s.unsubscribe
  let s := { s with topic_ := topic }
  let s := s.subscribe
  let s := s.propertyChanged "Topic"
  s.causeRender

/-- Lines 106-116. -/
def setColor (s : PoseDisplay) (color : Color) : PoseDisplay :=
  let s := { s with color_ := color }
  let s := s.arrowSetColor color.r_ color.g_ color.b_ s.alpha_
  let s := s.axesSetColor color.r_ color.g_ color.b_ s.alpha_
  let s := s.propertyChanged "Color"
  s.causeRender

/-- Lines 118-128. -/
def setAlpha (s : PoseDisplay) (a : ℚ) : PoseDisplay :=
  let s := { s with alpha_ := a }
  let s := s.arrowSetColor s.color_.r_ s.color_.g_ s.color_.b_ s.alpha_
  let s := s.axesSetColor s.color_.r_ s.color_.g_ s.color_.b_ s.alpha_
  let s := s.propertyChanged "Alpha"
  s.causeRender

/-- Lines 130-135. -/
def setHeadRadius (s : PoseDisplay) (r : ℚ) : PoseDisplay :=
  let s := { s with head_radius_ := r }
  let s := s.arrowSet s.shaft_length_ s.shaft_radius_ s.head_length_ s.head_radius_
  s.propertyChanged "Head Radius"

/-- Lines 137-142. -/
def setHeadLength (s : PoseDisplay) (l : ℚ) : PoseDisplay :=
  let s := { s with head_length_ := l }
  let s := s.arrowSet s.shaft_length_ s.shaft_radius_ s.head_length_ s.head_radius_
  s.propertyChanged "Head Length"

/-- Lines 144-149. -/
def setShaftRadius (s : PoseDisplay) (r : ℚ) : PoseDisplay :=
  let s := { s with shaft_radius_ := r }
  let s := s.arrowSet s.shaft_length_ s.shaft_radius_ s.head_length_ s.head_radius_
  s.propertyChanged "Shaft Radius"

/-- Lines 151-156. -/
def setShaftLength (s : PoseDisplay) (l : ℚ) : PoseDisplay :=
  let s := { s with shaft_length_ := l }
  let s := s.arrowSet s.shaft_length_ s.shaft_radius_ s.head_length_ s.head_radius_
  s.propertyChanged "Shaft Length"

/-- Lines 158-163. -/
def setAxesRadius (s : PoseDisplay) (r : ℚ) : PoseDisplay :=
  let s := { s with axes_radius_ := r }
  let s := s.axesSet s.axes_length_ s.axes_radius_
  s.propertyChanged "Axes Radius"

/-- Lines 165-170. -/
def setAxesLength (s : PoseDisplay) (l : ℚ) : PoseDisplay :=
  let s := { s with axes_length_ := l }
  let s := s.axesSet s.axes_length_ s.axes_radius_
  s.propertyChanged "Axes Length"

/-- Lines 234-274: without a property manager nothing happens; with one the shape category
is deleted and re-created with the properties of the current shape. -/
def createShapeProperties (s : PoseDisplay) : PoseDisplay :=
  if !s.property_manager_ then s
  else if s.current_shape_ = Arrow then
    { s with shape_properties :=
        ["Color", "Alpha", "Shaft Length", "Shaft Radius", "Head Length", "Head Radius"] }
  else if s.current_shape_ = Axes then
    { s with shape_properties := ["Axes Length", "Axes Radius"] }
  else { s with shape_properties := [] }

/-- The states of `setShape` (lines 172-194) after each of its seven statements, in order. -/
def setShapeSteps (s : PoseDisplay) (shape : Int) : List PoseDisplay :=
  let s1 := { s with current_shape_ := shape }
  let s2 := s1.setArrowVisible false
  let s3 := s2.setAxesVisible false
  let s4 := s3.showCurrentShape
  let s5 := s4.propertyChanged "Shape"
  let s6 := s5.createShapeProperties
  let s7 := s6.causeRender
  [s1, s2, s3, s4, s5, s6, s7]

/-- Lines 172-194. -/
def setShape (s : PoseDisplay) (shape : Int) : PoseDisplay :=
  let s := { s with current_shape_ := shape }
  let s := s.setArrowVisible false
  let s := s.setAxesVisible false
  let s := s.showCurrentShape
  let s := s.propertyChanged "Shape"
  let s := s.createShapeProperties
  s.causeRender

/-- Lines 211-225. -/
def onEnable (s : PoseDisplay) : PoseDisplay :=
  let s := s.showCurrentShape
  s.subscribe

/-- Lines 227-232. `scene_node_->setVisible(false)` is Ogre's cascading call: it hides what
hangs below the node, which is the arrow and the axes. -/
def onDisable (s : PoseDisplay) : PoseDisplay :=
  let s := s.unsubscribe
  let s := s.clear
  let s := s.setArrowVisible false
  s.setAxesVisible false

/-- Lines 292-294. -/
def targetFrameChanged (s : PoseDisplay) : PoseDisplay := s

/-- Lines 296-300. -/
def fixedFrameChanged (s : PoseDisplay) : PoseDisplay :=
  let s := { s with tf_filter_ := { s.tf_filter_ with target_frame := s.fixed_frame_ } }
  s.clear

/-- Lines 302-304. -/
def update (s : PoseDisplay) (_wall_dt _ros_dt : ℚ) : PoseDisplay := s

/-- Lines 343-346. -/
def reset (s : PoseDisplay) : PoseDisplay := s.clear

/-- Lines 306-341. The local `frame_id` and the local `bt_q` are computed as in the source
and, as in the source, not read again. `answer` is the outcome of the call inside `try`:
when it throws, the handler writes the error line, `pose` keeps the value it had before the
call, and control runs on to the statements after the handler. -/
def incomingMessage (sv : Services) (s : PoseDisplay) (message : PoseStamped) : PoseDisplay :=
  let frame_id := message.header.frame_id
  let _frame_id := if frame_id.isEmpty then s.fixed_frame_ else frame_id
  let _bt_q := message.pose.orientation
  let pose := poseStampedMsgToTF sv message
  let s : PoseDisplay := { s with tf_requests := s.tf_requests ++ [(s.fixed_frame_, pose)] }
  let answer := sv.transformPose s.fixed_frame_ pose
  let s : PoseDisplay :=
    match answer with
    | some _ => s
    | none =>
      { s with errors := s.errors ++
        [{ name := s.name_, frame := message.header.frame_id, fixed_frame := s.fixed_frame_ }] }
  let pose : StampedPose :=
    match answer with
    | some out => out
    | none => pose
  let quat := pose.rotation
  let orient := Quaternion.IDENTITY
  let orient := sv.ogreToRobotQuat orient
  let orient := sv.quatMul (Quaternion.mk quat.w quat.x quat.y quat.z) orient
  let orient := sv.robotToOgreQuat orient
  let s : PoseDisplay := { s with scene_orientation := orient }
  let pos := Vector3.mk pose.origin.x pose.origin.y pose.origin.z
  let pos := sv.robotToOgreVec pos
  let s : PoseDisplay := { s with scene_position := pos }
  s.causeRender

/-- Lines 49-78. `base` holds the members the `Display` constructor has set; `alpha0` and
`shape0` are the indeterminate contents of `alpha_` and `current_shape_`, which the
initialiser list leaves out and the two calls at the end assign. A new scene node sits at
the origin with the identity orientation. -/
def new (sv : Services) (base : Display) (alpha0 : ℚ) (shape0 : Int) : PoseDisplay :=
  let s : PoseDisplay :=
    { toDisplay := base
      topic_ := ""
      color_ := ⟨1, 1 / 10, 0⟩
      alpha_ := alpha0
      current_shape_ := shape0
      head_radius_ := 2 / 10
      head_length_ := 3 / 10
      shaft_radius_ := 1 / 10
      shaft_length_ := 1
      axes_length_ := 1
      axes_radius_ := 1 / 10
      sub_ := none
      tf_filter_ := { target_frame := "", queue_size := 5, messages := [] }
      arrow_ := { visible := true, color := none, dims := (1, 1 / 10, 3 / 10, 2 / 10) }
      axes_ := { visible := true, color := none, dims := (1, 1 / 10), orientation := none }
      scene_position := ⟨0, 0, 0⟩
      scene_orientation := Quaternion.IDENTITY
      renders := 0
      property_changes := []
      shape_properties := []
      tf_requests := []
      errors := [] }
  let s := s.setArrowVisible false
  let s := s.setAxesVisible false
  let quat := Quaternion.IDENTITY
  let quat := sv.robotToOgreQuat quat
  let s := { s with axes_ := { s.axes_ with orientation := some quat } }
  let s := s.setShape Arrow
  s.setAlpha 1

/-! ### Life cycle and delivery around the member functions -/

/-- Modelled from the spec: `Display::enable` of the base class (absent from the sources):
the enabled flag is raised and `onEnable` is called. -/
def enable (s : PoseDisplay) : PoseDisplay :=
  let s : PoseDisplay := { s with enabled_ := true }
  s.onEnable

/-- Modelled from the spec: `Display::disable` of the base class (absent from the sources):
the enabled flag is dropped and `onDisable` is called. -/
def disable (s : PoseDisplay) : PoseDisplay :=
  let s : PoseDisplay := { s with enabled_ := false }
  s.onDisable

/-- Modelled from the spec: `Display::setFixedFrame` of the base class (absent from the
sources): the new frame is stored and `fixedFrameChanged` is called. -/
def setFixedFrame (s : PoseDisplay) (frame : String) : PoseDisplay :=
  let s : PoseDisplay := { s with fixed_frame_ := frame }
  s.fixedFrameChanged

/-- The filter hands its oldest held message to the callback registered on line 63, which is
`incomingMessage`; with nothing held there is nothing to hand over. -/
def deliver (sv : Services) (s : PoseDisplay) : Option PoseDisplay :=
  match s.tf_filter_.messages with
  | [] => none
  | m :: rest =>
    let s : PoseDisplay := { s with tf_filter_ := { s.tf_filter_ with messages := rest } }
    some (incomingMessage sv s m)

/-- A run of `setShape` calls, one per list element. -/
def setShapeSeq (s : PoseDisplay) : List Int → PoseDisplay
  | [] => s
  | shape :: rest => setShapeSeq (s.setShape shape) rest

/-- The states passed through by a run of `setShape` calls: the steps of each call in turn. -/
def setShapeSeqSteps (s : PoseDisplay) : List Int → List PoseDisplay
  | [] => []
  | shape :: rest => s.setShapeSteps shape ++ setShapeSeqSteps (s.setShape shape) rest

/-- The four stored arrow dimensions, in the order the arrow handle takes them. -/
def arrowDims (s : PoseDisplay) : ℚ × ℚ × ℚ × ℚ :=
  (s.shaft_length_, s.shaft_radius_, s.head_length_, s.head_radius_)

/-- The two stored axes dimensions, in the order the axes handle takes them. -/
def axesDims (s : PoseDisplay) : ℚ × ℚ :=
  (s.axes_length_, s.axes_radius_)

/-- The colour both handles should carry: the stored colour with the stored alpha. -/
def appearance (s : PoseDisplay) : ℚ × ℚ × ℚ × ℚ :=
  (s.color_.r_, s.color_.g_, s.color_.b_, s.alpha_)

/-- Both glyphs are visible. -/
def bothVisible (s : PoseDisplay) : Prop :=
  s.arrow_.visible = true ∧ s.axes_.visible = true

instance (s : PoseDisplay) : Decidable s.bothVisible := by
  unfold bothVisible; infer_instance

end PoseDisplay

/-! ## A concrete set of collaborators -/

/-- Modelled from the spec: the frame converters of `rviz/common.h` (absent from the
sources) are a fixed linear remap with its inverse. This instance takes the axis remap
`(x, y, z) ↦ (-y, z, -x)` on vectors and on the vector part of a quaternion, the exact
Hamilton product for `quatMul`, a basis that reads back the quaternion it was built from, and
the tf client `tf` it is given. It serves to run the display on concrete inputs; statements
that quantify over `Services` do not use it. -/
def sampleServices (tf : String → StampedPose → Option StampedPose) : Services :=
  { robotToOgreVec := fun v => ⟨-v.y, v.z, -v.x⟩
    robotToOgreQuat := fun q => ⟨q.w, -q.y, q.z, -q.x⟩
    ogreToRobotQuat := fun q => ⟨q.w, -q.z, -q.x, q.y⟩
    quatMul := fun a b =>
      ⟨a.w * b.w - a.x * b.x - a.y * b.y - a.z * b.z,
       a.w * b.x + a.x * b.w + a.y * b.z - a.z * b.y,
       a.w * b.y - a.x * b.z + a.y * b.w + a.z * b.x,
       a.w * b.z + a.x * b.y - a.y * b.x + a.z * b.w⟩
    basisRotation := fun q => q
    transformPose := tf }

/-- A tf client that knows no frame: every request throws. -/
def tfUnavailable : String → StampedPose → Option StampedPose :=
  fun _ _ => none

/-- A tf client that answers every request, whatever the frame id of the pose, by moving the
pose one unit along x and tagging it with the target frame. -/
def tfShiftX : String → StampedPose → Option StampedPose :=
  fun target p =>
    some { p with frame_id_ := target, origin := ⟨p.origin.x + 1, p.origin.y, p.origin.z⟩ }

/-- A base-class part for examples: display "pose", enabled, fixed frame "world", no
property manager. -/
def sampleBase : Display :=
  { name_ := "pose", enabled_ := true, fixed_frame_ := "world", property_manager_ := false }

/-- The display the constructor returns for `sampleBase`, with the sample collaborators
around the tf client `tf`. -/
def sampleDisplay (tf : String → StampedPose → Option StampedPose) : PoseDisplay :=
  PoseDisplay.new (sampleServices tf) sampleBase 0 0

/-- A message in frame "sensor" at (1, 2, 3), turned half way round z. -/
def sensorSample : PoseStamped :=
  ⟨⟨0, "sensor"⟩, ⟨⟨1, 2, 3⟩, ⟨0, 0, 0, 1⟩⟩⟩

/-- A message with empty frame id, at the origin with the identity orientation. -/
def unframedSample : PoseStamped :=
  ⟨⟨0, ""⟩, ⟨⟨0, 0, 0⟩, Quaternion.IDENTITY⟩⟩

/-- The sample of the spec's scenario: frame "sensor", position (1, 0, 0), identity. -/
def scenarioSample : PoseStamped :=
  ⟨⟨0, "sensor"⟩, ⟨⟨1, 0, 0⟩, Quaternion.IDENTITY⟩⟩

/-- One call on the display from outside: a setter, a life-cycle event of the base class, or
a message handed over by the filter. -/
inductive Call where
  | setTopic (topic : String)
  | setColor (c : Color)
  | setAlpha (a : ℚ)
  | setHeadRadius (v : ℚ)
  | setHeadLength (v : ℚ)
  | setShaftRadius (v : ℚ)
  | setShaftLength (v : ℚ)
  | setAxesRadius (v : ℚ)
  | setAxesLength (v : ℚ)
  | setShape (n : Int)
  | enable
  | disable
  | setFixedFrame (frame : String)
  | targetFrameChanged
  | update (wall_dt ros_dt : ℚ)
  | incomingMessage (m : PoseStamped)
  | reset

/-- Performs one `Call` on the display. -/
def Call.run (sv : Services) (s : PoseDisplay) : Call → PoseDisplay
  | .setTopic topic => s.setTopic topic
  | .setColor c => s.setColor c
  | .setAlpha a => s.setAlpha a
  | .setHeadRadius v => s.setHeadRadius v
  | .setHeadLength v => s.setHeadLength v
  | .setShaftRadius v => s.setShaftRadius v
  | .setShaftLength v => s.setShaftLength v
  | .setAxesRadius v => s.setAxesRadius v
  | .setAxesLength v => s.setAxesLength v
  | .setShape n => s.setShape n
  | .enable => s.enable
  | .disable => s.disable
  | .setFixedFrame frame => s.setFixedFrame frame
  | .targetFrameChanged => s.targetFrameChanged
  | .update wall_dt ros_dt => s.update wall_dt ros_dt
  | .incomingMessage m => s.incomingMessage sv m
  | .reset => s.reset

/-- Performs a list of calls from left to right. -/
def runCalls (sv : Services) (s : PoseDisplay) (calls : List Call) : PoseDisplay :=
  calls.foldl (Call.run sv) s

/-- Modelled from the spec: `tf::MessageFilter::add`, reached through the subscriber that
line 62 connects as the filter's input. A message that arrives while the display is
subscribed joins the held messages; beyond the queue bound the oldest one is evicted. A
message that arrives while the display is not subscribed goes nowhere. -/
def PoseDisplay.arrive (s : PoseDisplay) (m : PoseStamped) : PoseDisplay :=
  match s.sub_ with
  | none => s
  | some _ =>
    let held := s.tf_filter_.messages ++ [m]
    let held := if held.length > s.tf_filter_.queue_size then held.drop 1 else held
    { s with tf_filter_ := { s.tf_filter_ with messages := held } }

/-- What can happen to the display and its inbox: a message arrives, the filter hands its
oldest held message to the callback, or a member function is called. -/
inductive InboxEvent where
  | arrive (m : PoseStamped)
  | deliver
  | call (c : Call)

/-- The messages that arrive in a list of events, in order. -/
def arrivals : List InboxEvent → List PoseStamped
  | [] => []
  | .arrive m :: rest => m :: arrivals rest
  | .deliver :: rest => arrivals rest
  | .call _ :: rest => arrivals rest

/-- Runs a list of events and returns the final display together with the messages the
filter handed to `incomingMessage` on the way, in order. -/
def runInbox (sv : Services) : PoseDisplay → List InboxEvent → PoseDisplay × List PoseStamped
  | s, [] => (s, [])
  | s, .arrive m :: rest => runInbox sv (s.arrive m) rest
  | s, .deliver :: rest =>
    match s.tf_filter_.messages, s.deliver sv with
    | m :: _, some t => ((runInbox sv t rest).1, m :: (runInbox sv t rest).2)
    | _, _ => runInbox sv s rest
  | s, .call c :: rest => runInbox sv (c.run sv s) rest

/-- A visible glyph is the glyph of the current shape. -/
def PoseDisplay.visibleIsCurrent (s : PoseDisplay) : Prop :=
  (s.arrow_.visible = true → s.current_shape_ = Arrow) ∧
  (s.axes_.visible = true → s.current_shape_ = Axes)

/-- One call of the appearance and shape setters, for runs of such calls. -/
inductive AppearanceCall where
  | color (c : Color)
  | alpha (a : ℚ)
  | shape (n : Int)

/-- Performs one call of `AppearanceCall` on the display. -/
def AppearanceCall.run (s : PoseDisplay) : AppearanceCall → PoseDisplay
  | .color c => s.setColor c
  | .alpha a => s.setAlpha a
  | .shape n => s.setShape n

/-- Performs a list of calls from left to right. -/
def runAppearanceCalls (s : PoseDisplay) (calls : List AppearanceCall) : PoseDisplay :=
  calls.foldl AppearanceCall.run s

end rviz

/-! ## Theorems -/

namespace rviz

open PoseDisplay

/-! ### What `createShapeProperties` leaves alone -/

theorem createShapeProperties_frame (s : PoseDisplay) :
    s.createShapeProperties =
      { s with shape_properties := s.createShapeProperties.shape_properties } := by
  unfold createShapeProperties
  split
  · rfl
  · split
    · rfl
    · split <;> rfl

@[simp]
theorem createShapeProperties_arrow (s : PoseDisplay) :
    s.createShapeProperties.arrow_ = s.arrow_ := by
  rw [createShapeProperties_frame]

@[simp]
theorem createShapeProperties_axes (s : PoseDisplay) :
    s.createShapeProperties.axes_ = s.axes_ := by
  rw [createShapeProperties_frame]

@[simp]
theorem createShapeProperties_renders (s : PoseDisplay) :
    s.createShapeProperties.renders = s.renders := by
  rw [createShapeProperties_frame]

@[simp]
theorem createShapeProperties_current_shape (s : PoseDisplay) :
    s.createShapeProperties.current_shape_ = s.current_shape_ := by
  rw [createShapeProperties_frame]

@[simp]
theorem createShapeProperties_color (s : PoseDisplay) :
    s.createShapeProperties.color_ = s.color_ := by
  rw [createShapeProperties_frame]

@[simp]
theorem createShapeProperties_alpha (s : PoseDisplay) :
    s.createShapeProperties.alpha_ = s.alpha_ := by
  rw [createShapeProperties_frame]

@[simp]
theorem createShapeProperties_head_radius (s : PoseDisplay) :
    s.createShapeProperties.head_radius_ = s.head_radius_ := by
  rw [createShapeProperties_frame]

@[simp]
theorem createShapeProperties_head_length (s : PoseDisplay) :
    s.createShapeProperties.head_length_ = s.head_length_ := by
  rw [createShapeProperties_frame]

@[simp]
theorem createShapeProperties_shaft_radius (s : PoseDisplay) :
    s.createShapeProperties.shaft_radius_ = s.shaft_radius_ := by
  rw [createShapeProperties_frame]

@[simp]
theorem createShapeProperties_shaft_length (s : PoseDisplay) :
    s.createShapeProperties.shaft_length_ = s.shaft_length_ := by
  rw [createShapeProperties_frame]

@[simp]
theorem createShapeProperties_axes_length (s : PoseDisplay) :
    s.createShapeProperties.axes_length_ = s.axes_length_ := by
  rw [createShapeProperties_frame]

@[simp]
theorem createShapeProperties_axes_radius (s : PoseDisplay) :
    s.createShapeProperties.axes_radius_ = s.axes_radius_ := by
  rw [createShapeProperties_frame]

/-- The guarded subscription writes nothing but `sub_`. -/
theorem subscribe_frame (s : PoseDisplay) :
    s.subscribe = { s with sub_ := s.subscribe.sub_ } := by
  unfold subscribe
  split <;> rfl

theorem subscribe_sub (s : PoseDisplay) :
    s.subscribe.sub_ = if s.enabled_ then some ⟨s.topic_, 5⟩ else s.sub_ := by
  unfold subscribe
  cases s.enabled_ <;> rfl

@[simp]
theorem subscribe_arrow (s : PoseDisplay) : s.subscribe.arrow_ = s.arrow_ := by
  rw [subscribe_frame]

@[simp]
theorem subscribe_axes (s : PoseDisplay) : s.subscribe.axes_ = s.axes_ := by
  rw [subscribe_frame]

@[simp]
theorem subscribe_current_shape (s : PoseDisplay) :
    s.subscribe.current_shape_ = s.current_shape_ := by
  rw [subscribe_frame]

@[simp]
theorem subscribe_topic (s : PoseDisplay) : s.subscribe.topic_ = s.topic_ := by
  rw [subscribe_frame]

@[simp]
theorem subscribe_renders (s : PoseDisplay) : s.subscribe.renders = s.renders := by
  rw [subscribe_frame]

@[simp]
theorem subscribe_tf_filter (s : PoseDisplay) :
    s.subscribe.tf_filter_ = s.tf_filter_ := by
  rw [subscribe_frame]

/-- The message callback writes neither a handle nor the shape. -/
theorem incomingMessage_glyphs (sv : Services) (s : PoseDisplay) (m : PoseStamped) :
    (s.incomingMessage sv m).arrow_ = s.arrow_ ∧
    (s.incomingMessage sv m).axes_ = s.axes_ ∧
    (s.incomingMessage sv m).current_shape_ = s.current_shape_ := by
  simp only [incomingMessage, causeRender]
  split <;> exact ⟨rfl, rfl, rfl⟩

/-! ### Shape selection and visibility -/

theorem Arrow_ne_Axes : Arrow ≠ Axes := by decide

/-- What the shared switch does to the two visibility flags. -/
theorem showCurrentShape_visible (s : PoseDisplay) :
    s.showCurrentShape.arrow_.visible = (decide (s.current_shape_ = Arrow) || s.arrow_.visible) ∧
    s.showCurrentShape.axes_.visible =
      ((!decide (s.current_shape_ = Arrow) && decide (s.current_shape_ = Axes))
        || s.axes_.visible) := by
  unfold showCurrentShape
  by_cases h : s.current_shape_ = Arrow
  · rw [if_pos h]
    simp [h, setArrowVisible]
  · rw [if_neg h]
    by_cases h2 : s.current_shape_ = Axes
    · rw [if_pos h2]
      simp [h, h2, setAxesVisible, Arrow_ne_Axes.symm]
    · rw [if_neg h2]
      simp [h, h2]

/-- The shared switch writes nothing but the two handles. -/
theorem showCurrentShape_frame (s : PoseDisplay) :
    s.showCurrentShape =
      { s with arrow_ := s.showCurrentShape.arrow_, axes_ := s.showCurrentShape.axes_ } := by
  unfold showCurrentShape
  split
  · rfl
  · split <;> rfl

/-- On the arrow handle the shared switch writes nothing but the visibility. -/
theorem showCurrentShape_arrow (s : PoseDisplay) :
    s.showCurrentShape.arrow_ =
      { s.arrow_ with visible := s.showCurrentShape.arrow_.visible } := by
  unfold showCurrentShape
  split
  · rfl
  · split <;> rfl

/-- On the axes handle the shared switch writes nothing but the visibility. -/
theorem showCurrentShape_axes (s : PoseDisplay) :
    s.showCurrentShape.axes_ =
      { s.axes_ with visible := s.showCurrentShape.axes_.visible } := by
  unfold showCurrentShape
  split
  · rfl
  · split <;> rfl

@[simp]
theorem showCurrentShape_arrow_color (s : PoseDisplay) :
    s.showCurrentShape.arrow_.color = s.arrow_.color := by
  rw [showCurrentShape_arrow]

@[simp]
theorem showCurrentShape_arrow_dims (s : PoseDisplay) :
    s.showCurrentShape.arrow_.dims = s.arrow_.dims := by
  rw [showCurrentShape_arrow]

@[simp]
theorem showCurrentShape_axes_color (s : PoseDisplay) :
    s.showCurrentShape.axes_.color = s.axes_.color := by
  rw [showCurrentShape_axes]

@[simp]
theorem showCurrentShape_axes_dims (s : PoseDisplay) :
    s.showCurrentShape.axes_.dims = s.axes_.dims := by
  rw [showCurrentShape_axes]

@[simp]
theorem showCurrentShape_current_shape (s : PoseDisplay) :
    s.showCurrentShape.current_shape_ = s.current_shape_ := by
  rw [showCurrentShape_frame]

@[simp]
theorem showCurrentShape_renders (s : PoseDisplay) :
    s.showCurrentShape.renders = s.renders := by
  rw [showCurrentShape_frame]

@[simp]
theorem showCurrentShape_color (s : PoseDisplay) :
    s.showCurrentShape.color_ = s.color_ := by
  rw [showCurrentShape_frame]

@[simp]
theorem showCurrentShape_alpha (s : PoseDisplay) :
    s.showCurrentShape.alpha_ = s.alpha_ := by
  rw [showCurrentShape_frame]

@[simp]
theorem showCurrentShape_head_radius (s : PoseDisplay) :
    s.showCurrentShape.head_radius_ = s.head_radius_ := by
  rw [showCurrentShape_frame]

@[simp]
theorem showCurrentShape_head_length (s : PoseDisplay) :
    s.showCurrentShape.head_length_ = s.head_length_ := by
  rw [showCurrentShape_frame]

@[simp]
theorem showCurrentShape_shaft_radius (s : PoseDisplay) :
    s.showCurrentShape.shaft_radius_ = s.shaft_radius_ := by
  rw [showCurrentShape_frame]

@[simp]
theorem showCurrentShape_shaft_length (s : PoseDisplay) :
    s.showCurrentShape.shaft_length_ = s.shaft_length_ := by
  rw [showCurrentShape_frame]

@[simp]
theorem showCurrentShape_axes_length (s : PoseDisplay) :
    s.showCurrentShape.axes_length_ = s.axes_length_ := by
  rw [showCurrentShape_frame]

@[simp]
theorem showCurrentShape_axes_radius (s : PoseDisplay) :
    s.showCurrentShape.axes_radius_ = s.axes_radius_ := by
  rw [showCurrentShape_frame]

@[simp]
theorem showCurrentShape_sub (s : PoseDisplay) :
    s.showCurrentShape.sub_ = s.sub_ := by
  rw [showCurrentShape_frame]

@[simp]
theorem showCurrentShape_topic (s : PoseDisplay) :
    s.showCurrentShape.topic_ = s.topic_ := by
  rw [showCurrentShape_frame]

@[simp]
theorem showCurrentShape_enabled (s : PoseDisplay) :
    s.showCurrentShape.enabled_ = s.enabled_ := by
  rw [showCurrentShape_frame]

theorem setShape_arrow_visible (s : PoseDisplay) (shape : Int) :
    (s.setShape shape).arrow_.visible = decide (shape = Arrow) := by
  simp [setShape, causeRender, propertyChanged, showCurrentShape_visible, setArrowVisible,
    setAxesVisible]

theorem setShape_axes_visible (s : PoseDisplay) (shape : Int) :
    (s.setShape shape).axes_.visible = decide (shape = Axes) := by
  have h := Arrow_ne_Axes
  simp [setShape, causeRender, propertyChanged, showCurrentShape_visible, setArrowVisible,
    setAxesVisible]
  intro h2 h3
  exact h (h3 ▸ h2 ▸ rfl)

theorem setShape_not_bothVisible (s : PoseDisplay) (shape : Int) :
    ¬ (s.setShape shape).bothVisible := by
  unfold bothVisible
  rw [setShape_arrow_visible, setShape_axes_visible]
  intro h
  simp only [decide_eq_true_eq] at h
  exact Arrow_ne_Axes (h.1.symm.trans h.2)

theorem setShapeSteps_ne_nil (s : PoseDisplay) (shape : Int) : s.setShapeSteps shape ≠ [] := by
  simp [setShapeSteps]

/-- The last of the listed steps is the state `setShape` returns. -/
theorem setShapeSteps_getLast (s : PoseDisplay) (shape : Int) :
    (s.setShapeSteps shape).getLast? = some (s.setShape shape) := by
  simp [setShapeSteps, setShape]

/-- From the first visibility write on, no step of `setShape` shows both glyphs. -/
theorem setShapeSteps_tail_not_bothVisible (s : PoseDisplay) (shape : Int) :
    ∀ t ∈ (s.setShapeSteps shape).drop 1, ¬ t.bothVisible := by
  intro t ht
  simp only [setShapeSteps, List.drop_succ_cons, List.drop_zero, List.mem_cons,
    List.mem_singleton, List.not_mem_nil, or_false] at ht
  have h := Arrow_ne_Axes
  rcases ht with rfl | rfl | rfl | rfl | rfl | rfl <;>
    simp [bothVisible, causeRender, propertyChanged, showCurrentShape_visible,
      setArrowVisible, setAxesVisible] <;>
    exact fun h1 h2 => absurd h1 h2

/-- The step before the first visibility write shows what the caller left. -/
theorem setShapeSteps_not_bothVisible (s : PoseDisplay) (shape : Int)
    (hs : ¬ s.bothVisible) : ∀ t ∈ s.setShapeSteps shape, ¬ t.bothVisible := by
  intro t ht
  have hsplit : s.setShapeSteps shape =
      { s with current_shape_ := shape } :: (s.setShapeSteps shape).drop 1 := by
    simp [setShapeSteps]
  rw [hsplit] at ht
  rcases List.mem_cons.mp ht with rfl | ht
  · exact hs
  · exact setShapeSteps_tail_not_bothVisible s shape t ht

theorem setShapeSeq_append (s : PoseDisplay) (xs : List Int) (x : Int) :
    setShapeSeq s (xs ++ [x]) = (setShapeSeq s xs).setShape x := by
  induction xs generalizing s with
  | nil => rfl
  | cons y ys ih => simp [setShapeSeq, ih]

theorem setShapeSeqSteps_not_bothVisible (shapes : List Int) :
    ∀ s : PoseDisplay, ¬ s.bothVisible → ∀ t ∈ setShapeSeqSteps s shapes, ¬ t.bothVisible := by
  induction shapes with
  | nil => intro s _ t ht; simp [setShapeSeqSteps] at ht
  | cons x rest ih =>
    intro s hs t ht
    simp only [setShapeSeqSteps, List.mem_append] at ht
    rcases ht with ht | ht
    · exact setShapeSteps_not_bothVisible s x hs t ht
    · exact ih (s.setShape x) (setShape_not_bothVisible s x) t ht

theorem setShapeSeqSteps_tail_not_bothVisible (s : PoseDisplay) (shapes : List Int) :
    ∀ t ∈ (setShapeSeqSteps s shapes).drop 1, ¬ t.bothVisible := by
  cases shapes with
  | nil => intro t ht; simp [setShapeSeqSteps] at ht
  | cons x rest =>
    intro t ht
    have hsplit : setShapeSeqSteps s (x :: rest) =
        { s with current_shape_ := x } ::
          ((s.setShapeSteps x).drop 1 ++ setShapeSeqSteps (s.setShape x) rest) := by
      simp [setShapeSeqSteps, setShapeSteps]
    rw [hsplit] at ht
    simp only [List.drop_succ_cons, List.drop_zero, List.mem_append] at ht
    rcases ht with ht | ht
    · exact setShapeSteps_tail_not_bothVisible s x t ht
    · exact setShapeSeqSteps_not_bothVisible rest (s.setShape x)
        (setShape_not_bothVisible s x) t ht

/-- C3: after a non-empty run of `setShape` calls with arguments Arrow or Axes, started in
any state, the arrow is visible exactly when the last argument was Arrow, the axes exactly
when it was Axes, and so exactly one of the two is visible; no state passed through after
the first visibility write shows both glyphs, and none at all does when the starting state
did not show both. -/
theorem setShape_sequence_exactly_one_visible (s : PoseDisplay) (shapes : List Int)
    (hne : shapes ≠ []) (hdom : ∀ x ∈ shapes, x = Arrow ∨ x = Axes) :
    ((setShapeSeq s shapes).arrow_.visible = true ↔ shapes.getLast hne = Arrow) ∧
    ((setShapeSeq s shapes).axes_.visible = true ↔ shapes.getLast hne = Axes) ∧
    ((setShapeSeq s shapes).arrow_.visible ≠ (setShapeSeq s shapes).axes_.visible) ∧
    (∀ t ∈ (setShapeSeqSteps s shapes).drop 1, ¬ t.bothVisible) ∧
    (¬ s.bothVisible → ∀ t ∈ setShapeSeqSteps s shapes, ¬ t.bothVisible) := by
  have hlast : setShapeSeq s shapes =
      (setShapeSeq s shapes.dropLast).setShape (shapes.getLast hne) := by
    conv_lhs => rw [← List.dropLast_append_getLast hne]
    exact setShapeSeq_append s _ _
  have hmem : shapes.getLast hne = Arrow ∨ shapes.getLast hne = Axes :=
    hdom _ (List.getLast_mem hne)
  refine ⟨?_, ?_, ?_, setShapeSeqSteps_tail_not_bothVisible s shapes,
    fun hs => setShapeSeqSteps_not_bothVisible shapes s hs⟩
  · rw [hlast, setShape_arrow_visible]; simp
  · rw [hlast, setShape_axes_visible]; simp
  · rw [hlast, setShape_arrow_visible, setShape_axes_visible]
    rcases hmem with h | h
    · rw [h]; simp [Arrow_ne_Axes]
    · rw [h]; simp [Arrow_ne_Axes.symm]

/-- The run Axes, Arrow, Axes on the display the constructor returns, through C3. -/
theorem setShape_sequence_exactly_one_visible_witness :
    (setShapeSeq (sampleDisplay tfUnavailable) [Axes, Arrow, Axes]).arrow_.visible = false ∧
    (setShapeSeq (sampleDisplay tfUnavailable) [Axes, Arrow, Axes]).axes_.visible = true ∧
    ((setShapeSeq (sampleDisplay tfUnavailable) [Axes, Arrow, Axes]).arrow_.visible = true ↔
      [Axes, Arrow, Axes].getLast (List.cons_ne_nil _ _) = Arrow) ∧
    (∀ t ∈ (setShapeSeqSteps (sampleDisplay tfUnavailable) [Axes, Arrow, Axes]).drop 1,
      ¬ t.bothVisible) :=
  ⟨by decide, by decide,
   (setShape_sequence_exactly_one_visible (sampleDisplay tfUnavailable) [Axes, Arrow, Axes]
      (List.cons_ne_nil _ _) (by decide)).1,
   (setShape_sequence_exactly_one_visible (sampleDisplay tfUnavailable) [Axes, Arrow, Axes]
      (List.cons_ne_nil _ _) (by decide)).2.2.2.1⟩

/-! ### States the display can be in -/

theorem not_bothVisible_of_visibleIsCurrent (s : PoseDisplay) (h : s.visibleIsCurrent) :
    ¬ s.bothVisible := by
  intro hb
  exact Arrow_ne_Axes ((h.1 hb.1).symm.trans (h.2 hb.2))

/-- A call that writes neither handle visibility nor the shape keeps the property. -/
theorem visibleIsCurrent_of_same_glyphs (s t : PoseDisplay)
    (h1 : t.arrow_.visible = s.arrow_.visible) (h2 : t.axes_.visible = s.axes_.visible)
    (h3 : t.current_shape_ = s.current_shape_) (hs : s.visibleIsCurrent) :
    t.visibleIsCurrent := by
  unfold visibleIsCurrent at *
  rw [h1, h2, h3]
  exact hs

theorem setShape_visibleIsCurrent (s : PoseDisplay) (shape : Int) :
    (s.setShape shape).visibleIsCurrent := by
  have hc : (s.setShape shape).current_shape_ = shape := by
    simp [setShape, causeRender, propertyChanged, setArrowVisible, setAxesVisible]
  unfold visibleIsCurrent
  rw [setShape_arrow_visible, setShape_axes_visible, hc]
  simp

theorem setAlpha_visibleIsCurrent (s : PoseDisplay) (a : ℚ) (hs : s.visibleIsCurrent) :
    (s.setAlpha a).visibleIsCurrent :=
  visibleIsCurrent_of_same_glyphs s _ rfl rfl rfl hs

theorem new_visibleIsCurrent (sv : Services) (base : Display) (alpha0 : ℚ) (shape0 : Int) :
    (PoseDisplay.new sv base alpha0 shape0).visibleIsCurrent := by
  unfold PoseDisplay.new
  exact setAlpha_visibleIsCurrent _ 1 (setShape_visibleIsCurrent _ Arrow)

theorem enable_visibleIsCurrent (s : PoseDisplay) (hs : s.visibleIsCurrent) :
    s.enable.visibleIsCurrent := by
  unfold visibleIsCurrent at *
  simp only [enable, onEnable, subscribe_arrow, subscribe_axes, subscribe_current_shape,
    showCurrentShape_current_shape, showCurrentShape_visible]
  have h := Arrow_ne_Axes
  constructor
  · intro hv
    simp only [Bool.or_eq_true, decide_eq_true_eq] at hv
    rcases hv with hv | hv
    · exact hv
    · exact hs.1 hv
  · intro hv
    simp only [Bool.or_eq_true, Bool.and_eq_true, decide_eq_true_eq] at hv
    rcases hv with hv | hv
    · exact hv.2
    · exact hs.2 hv

theorem disable_visibleIsCurrent (s : PoseDisplay) : s.disable.visibleIsCurrent := by
  simp [visibleIsCurrent, disable, onDisable, setArrowVisible, setAxesVisible, clear,
    unsubscribe]

theorem Call.run_visibleIsCurrent (sv : Services) (s : PoseDisplay) (c : Call)
    (hs : s.visibleIsCurrent) : (c.run sv s).visibleIsCurrent := by
  cases c with
  | setTopic topic =>
    refine visibleIsCurrent_of_same_glyphs s _ ?_ ?_ ?_ hs <;>
      simp [Call.run, PoseDisplay.setTopic, causeRender, propertyChanged, unsubscribe]
  | setColor c => exact visibleIsCurrent_of_same_glyphs s _ rfl rfl rfl hs
  | setAlpha a => exact visibleIsCurrent_of_same_glyphs s _ rfl rfl rfl hs
  | setHeadRadius v => exact visibleIsCurrent_of_same_glyphs s _ rfl rfl rfl hs
  | setHeadLength v => exact visibleIsCurrent_of_same_glyphs s _ rfl rfl rfl hs
  | setShaftRadius v => exact visibleIsCurrent_of_same_glyphs s _ rfl rfl rfl hs
  | setShaftLength v => exact visibleIsCurrent_of_same_glyphs s _ rfl rfl rfl hs
  | setAxesRadius v => exact visibleIsCurrent_of_same_glyphs s _ rfl rfl rfl hs
  | setAxesLength v => exact visibleIsCurrent_of_same_glyphs s _ rfl rfl rfl hs
  | setShape n => exact setShape_visibleIsCurrent s n
  | enable => exact enable_visibleIsCurrent s hs
  | disable => exact disable_visibleIsCurrent s
  | setFixedFrame frame => exact visibleIsCurrent_of_same_glyphs s _ rfl rfl rfl hs
  | targetFrameChanged => exact hs
  | update wall_dt ros_dt => exact hs
  | incomingMessage m =>
    have h := incomingMessage_glyphs sv s m
    exact visibleIsCurrent_of_same_glyphs s _ (by rw [Call.run, h.1]) (by rw [Call.run, h.2.1])
      h.2.2 hs
  | reset => exact visibleIsCurrent_of_same_glyphs s _ rfl rfl rfl hs

/-- Whatever is called on the display after its construction, it never shows both glyphs:
this is why a caller of `setShape` cannot meet a state that does. -/
theorem runCalls_not_bothVisible (sv : Services) (base : Display) (alpha0 : ℚ) (shape0 : Int)
    (calls : List Call) :
    ¬ (runCalls sv (PoseDisplay.new sv base alpha0 shape0) calls).bothVisible := by
  apply not_bothVisible_of_visibleIsCurrent
  have key : ∀ (cs : List Call) (s : PoseDisplay), s.visibleIsCurrent →
      (runCalls sv s cs).visibleIsCurrent := by
    intro cs
    induction cs with
    | nil => intro s hs; exact hs
    | cons c rest ih => intro s hs; exact ih _ (Call.run_visibleIsCurrent sv s c hs)
  exact key calls _ (new_visibleIsCurrent sv base alpha0 shape0)

/-! ### The pose path: `incomingMessage` -/

/-- Every call hands the tf client the converted message as it is, frame id included. -/
theorem incomingMessage_tf_requests (sv : Services) (s : PoseDisplay) (m : PoseStamped) :
    (s.incomingMessage sv m).tf_requests =
      s.tf_requests ++ [(s.fixed_frame_, poseStampedMsgToTF sv m)] := by
  simp only [incomingMessage, causeRender]
  split <;> rfl

/-- The scene node after a call whose transform was answered with `p`. -/
theorem incomingMessage_scene_of_success (sv : Services) (s : PoseDisplay) (m : PoseStamped)
    (p : StampedPose)
    (h : sv.transformPose s.fixed_frame_ (poseStampedMsgToTF sv m) = some p) :
    (s.incomingMessage sv m).scene_position = sv.robotToOgreVec p.origin ∧
    (s.incomingMessage sv m).scene_orientation =
      sv.robotToOgreQuat (sv.quatMul p.rotation (sv.ogreToRobotQuat Quaternion.IDENTITY)) := by
  simp [incomingMessage, causeRender, h]

/-- The scene node after a call whose transform threw: it is written all the same, from the
pose of the message as it arrived. -/
theorem incomingMessage_scene_of_failure (sv : Services) (s : PoseDisplay) (m : PoseStamped)
    (h : sv.transformPose s.fixed_frame_ (poseStampedMsgToTF sv m) = none) :
    (s.incomingMessage sv m).scene_position = sv.robotToOgreVec m.pose.position ∧
    (s.incomingMessage sv m).scene_orientation =
      sv.robotToOgreQuat (sv.quatMul (sv.basisRotation m.pose.orientation)
        (sv.ogreToRobotQuat Quaternion.IDENTITY)) := by
  simp only [incomingMessage, causeRender, h]
  exact ⟨rfl, rfl⟩

/-- C1, the code at a failing transform: the display built by the constructor sits at the
origin with the identity orientation; a message in frame "sensor" at (1, 2, 3), turned half
way round z, arrives while the tf client throws. The error line is written and the scene
node is moved to the converted pose of the message instead of staying where it was. -/
theorem incomingMessage_failed_transform_moves_scene_node :
    (sampleServices tfUnavailable).transformPose (sampleDisplay tfUnavailable).fixed_frame_
        (poseStampedMsgToTF (sampleServices tfUnavailable) sensorSample) = none ∧
    (sampleDisplay tfUnavailable).scene_position = ⟨0, 0, 0⟩ ∧
    (sampleDisplay tfUnavailable).scene_orientation = ⟨1, 0, 0, 0⟩ ∧
    ((sampleDisplay tfUnavailable).incomingMessage (sampleServices tfUnavailable)
        sensorSample).errors = [⟨"pose", "sensor", "world"⟩] ∧
    ((sampleDisplay tfUnavailable).incomingMessage (sampleServices tfUnavailable)
        sensorSample).scene_position = ⟨-2, 3, -1⟩ ∧
    ((sampleDisplay tfUnavailable).incomingMessage (sampleServices tfUnavailable)
        sensorSample).scene_orientation = ⟨0, 0, 1, 0⟩ ∧
    ((sampleDisplay tfUnavailable).incomingMessage (sampleServices tfUnavailable)
        sensorSample).scene_position ≠ (sampleDisplay tfUnavailable).scene_position ∧
    ((sampleDisplay tfUnavailable).incomingMessage (sampleServices tfUnavailable)
        sensorSample).scene_orientation ≠ (sampleDisplay tfUnavailable).scene_orientation := by
  have hfail : (sampleServices tfUnavailable).transformPose
      (sampleDisplay tfUnavailable).fixed_frame_
      (poseStampedMsgToTF (sampleServices tfUnavailable) sensorSample) = none := rfl
  have hscene := incomingMessage_scene_of_failure (sampleServices tfUnavailable)
    (sampleDisplay tfUnavailable) sensorSample hfail
  have hpos : ((sampleDisplay tfUnavailable).incomingMessage (sampleServices tfUnavailable)
      sensorSample).scene_position = ⟨-2, 3, -1⟩ := by
    rw [hscene.1]; rfl
  have hori : ((sampleDisplay tfUnavailable).incomingMessage (sampleServices tfUnavailable)
      sensorSample).scene_orientation = ⟨0, 0, 1, 0⟩ := by
    rw [hscene.2]
    simp [sensorSample, sampleServices, Quaternion.IDENTITY]
  have hp0 : (sampleDisplay tfUnavailable).scene_position = ⟨0, 0, 0⟩ := rfl
  have ho0 : (sampleDisplay tfUnavailable).scene_orientation = ⟨1, 0, 0, 0⟩ := rfl
  refine ⟨hfail, hp0, ho0, by decide, hpos, hori, ?_, ?_⟩
  · rw [hpos, hp0]; decide
  · rw [hori, ho0]; decide

/-- C2, the code at an empty frame id: with fixed frame "world" and a tf client that answers
any request by a shift of one unit along x, a message with empty frame id at the origin is
handed to the tf client still tagged with the empty frame id, and the scene node is placed
at the conversion of the shifted pose, not of the pose the message carried; with a tf client
that throws, the same message leaves an error line naming the empty frame. -/
theorem incomingMessage_empty_frame_id_goes_to_tf :
    ((sampleDisplay tfShiftX).incomingMessage (sampleServices tfShiftX)
        unframedSample).tf_requests =
      [("world", ⟨"", 0, ⟨0, 0, 0⟩, Quaternion.IDENTITY⟩)] ∧
    ((sampleDisplay tfShiftX).incomingMessage (sampleServices tfShiftX)
        unframedSample).scene_position = (sampleServices tfShiftX).robotToOgreVec ⟨1, 0, 0⟩ ∧
    ((sampleDisplay tfShiftX).incomingMessage (sampleServices tfShiftX)
        unframedSample).scene_position ≠
      (sampleServices tfShiftX).robotToOgreVec unframedSample.pose.position ∧
    ((sampleDisplay tfUnavailable).incomingMessage (sampleServices tfUnavailable)
        unframedSample).tf_requests =
      [("world", ⟨"", 0, ⟨0, 0, 0⟩, Quaternion.IDENTITY⟩)] ∧
    ((sampleDisplay tfUnavailable).incomingMessage (sampleServices tfUnavailable)
        unframedSample).errors = [⟨"pose", "", "world"⟩] := by
  have hans : (sampleServices tfShiftX).transformPose (sampleDisplay tfShiftX).fixed_frame_
      (poseStampedMsgToTF (sampleServices tfShiftX) unframedSample) =
      some ⟨"world", 0, ⟨0 + 1, 0, 0⟩, Quaternion.IDENTITY⟩ := rfl
  have hscene := (incomingMessage_scene_of_success (sampleServices tfShiftX)
    (sampleDisplay tfShiftX) unframedSample _ hans).1
  refine ⟨by rw [incomingMessage_tf_requests]; rfl, ?_, ?_,
    by rw [incomingMessage_tf_requests]; rfl, by decide⟩
  · rw [hscene]; simp
  · rw [hscene]; simp [unframedSample, sampleServices]

/-- C5: when the tf client answers with `p`, the scene node's position is `robotToOgre` of
the origin of `p` and its orientation is `robotToOgre` of the rotation of `p` times
`ogreToRobot` of the identity; both are the same whatever display state the message meets,
as long as the fixed frame is the same, so neither depends on the transform held before. -/
theorem incomingMessage_success_commits_transformed_pose (sv : Services) (s : PoseDisplay)
    (m : PoseStamped) (p : StampedPose)
    (h : sv.transformPose s.fixed_frame_ (poseStampedMsgToTF sv m) = some p) :
    (s.incomingMessage sv m).scene_position = sv.robotToOgreVec p.origin ∧
    (s.incomingMessage sv m).scene_orientation =
      sv.robotToOgreQuat (sv.quatMul p.rotation (sv.ogreToRobotQuat Quaternion.IDENTITY)) ∧
    ∀ s2 : PoseDisplay, s2.fixed_frame_ = s.fixed_frame_ →
      (s2.incomingMessage sv m).scene_position = (s.incomingMessage sv m).scene_position ∧
      (s2.incomingMessage sv m).scene_orientation =
        (s.incomingMessage sv m).scene_orientation := by
  have h1 := incomingMessage_scene_of_success sv s m p h
  refine ⟨h1.1, h1.2, ?_⟩
  intro s2 hf
  have h2 := incomingMessage_scene_of_success sv s2 m p (hf ▸ h)
  exact ⟨h2.1.trans h1.1.symm, h2.2.trans h1.2.symm⟩

/-- The shifting tf client on the sample of the scenario: (1, 0, 0) in "sensor" comes back
as (2, 0, 0) in "world". -/
theorem tfShiftX_scenario_answer :
    (sampleServices tfShiftX).transformPose (sampleDisplay tfShiftX).fixed_frame_
        (poseStampedMsgToTF (sampleServices tfShiftX) scenarioSample)
      = some ⟨"world", 0, ⟨2, 0, 0⟩, Quaternion.IDENTITY⟩ :=
  (show _ = some (StampedPose.mk "world" 0 ⟨1 + 1, 0, 0⟩ Quaternion.IDENTITY) from rfl).trans
    (by norm_num)

/-- The scenario of the spec run through C5: fixed frame "world", a sample at (1, 0, 0) in
"sensor", a tf client that answers with (2, 0, 0). -/
theorem incomingMessage_success_commits_transformed_pose_witness :
    (sampleServices tfShiftX).transformPose (sampleDisplay tfShiftX).fixed_frame_
        (poseStampedMsgToTF (sampleServices tfShiftX) scenarioSample)
      = some ⟨"world", 0, ⟨2, 0, 0⟩, Quaternion.IDENTITY⟩ ∧
    ((sampleDisplay tfShiftX).incomingMessage (sampleServices tfShiftX)
        scenarioSample).scene_position = (sampleServices tfShiftX).robotToOgreVec ⟨2, 0, 0⟩ :=
  ⟨tfShiftX_scenario_answer,
   (incomingMessage_success_commits_transformed_pose (sampleServices tfShiftX)
      (sampleDisplay tfShiftX) scenarioSample
      ⟨"world", 0, ⟨2, 0, 0⟩, Quaternion.IDENTITY⟩ tfShiftX_scenario_answer).1⟩

/-! ### Re-rendering -/

/-- The four setters that end in `causeRender()` call it once. -/
theorem setters_with_causeRender (s : PoseDisplay) (topic : String) (shape : Int)
    (color : Color) (a : ℚ) :
    (s.setTopic topic).renders = s.renders + 1 ∧
    (s.setShape shape).renders = s.renders + 1 ∧
    (s.setColor color).renders = s.renders + 1 ∧
    (s.setAlpha a).renders = s.renders + 1 := by
  refine ⟨?_, ?_, ?_, ?_⟩
  · unfold setTopic subscribe
    cases h : s.enabled_ <;> simp [unsubscribe, causeRender, propertyChanged, h]
  · simp [setShape, causeRender, propertyChanged, setArrowVisible, setAxesVisible]
  · simp [setColor, causeRender, propertyChanged, arrowSetColor, axesSetColor]
  · simp [setAlpha, causeRender, propertyChanged, arrowSetColor, axesSetColor]

/-- The six dimension setters end in `propertyChanged` and never reach `causeRender`. -/
theorem dimension_setters_without_causeRender (s : PoseDisplay) (v : ℚ) :
    (s.setShaftLength v).renders = s.renders ∧
    (s.setShaftRadius v).renders = s.renders ∧
    (s.setHeadLength v).renders = s.renders ∧
    (s.setHeadRadius v).renders = s.renders ∧
    (s.setAxesLength v).renders = s.renders ∧
    (s.setAxesRadius v).renders = s.renders := by
  simp [setShaftLength, setShaftRadius, setHeadLength, setHeadRadius, setAxesLength,
    setAxesRadius, propertyChanged, arrowSet, axesSet]

/-- C4, the code at the dimension setters: on the display built by the constructor each of
the six dimension setters, called with 2, pushes the geometry and records the property
change but leaves the number of `causeRender` calls where it was, while `setColor` and
`setAlpha` on the same display raise it by one. -/
theorem dimension_setters_do_not_render :
    ((sampleDisplay tfUnavailable).setShaftLength 2).renders
      = (sampleDisplay tfUnavailable).renders ∧
    ((sampleDisplay tfUnavailable).setShaftRadius 2).renders
      = (sampleDisplay tfUnavailable).renders ∧
    ((sampleDisplay tfUnavailable).setHeadLength 2).renders
      = (sampleDisplay tfUnavailable).renders ∧
    ((sampleDisplay tfUnavailable).setHeadRadius 2).renders
      = (sampleDisplay tfUnavailable).renders ∧
    ((sampleDisplay tfUnavailable).setAxesLength 2).renders
      = (sampleDisplay tfUnavailable).renders ∧
    ((sampleDisplay tfUnavailable).setAxesRadius 2).renders
      = (sampleDisplay tfUnavailable).renders ∧
    ((sampleDisplay tfUnavailable).setShaftLength 2).arrow_.dims
      = (2, 1 / 10, 3 / 10, 2 / 10) ∧
    ((sampleDisplay tfUnavailable).setShaftLength 2).property_changes
      = (sampleDisplay tfUnavailable).property_changes ++ ["Shaft Length"] ∧
    ((sampleDisplay tfUnavailable).setColor ⟨0, 0, 1⟩).renders
      = (sampleDisplay tfUnavailable).renders + 1 ∧
    ((sampleDisplay tfUnavailable).setAlpha (1 / 2)).renders
      = (sampleDisplay tfUnavailable).renders + 1 := by
  have hd := dimension_setters_without_causeRender (sampleDisplay tfUnavailable) 2
  have hr := setters_with_causeRender (sampleDisplay tfUnavailable) "" Arrow ⟨0, 0, 1⟩ (1 / 2)
  exact ⟨hd.1, hd.2.1, hd.2.2.1, hd.2.2.2.1, hd.2.2.2.2.1, hd.2.2.2.2.2, rfl, rfl,
    hr.2.2.1, hr.2.2.2⟩

/-! ### Appearance -/

theorem setColor_appearance (s : PoseDisplay) (c : Color) :
    (s.setColor c).arrow_.color = some (s.setColor c).appearance ∧
    (s.setColor c).axes_.color = some (s.setColor c).appearance := by
  simp [setColor, appearance, causeRender, propertyChanged, arrowSetColor, axesSetColor]

theorem setAlpha_appearance (s : PoseDisplay) (a : ℚ) :
    (s.setAlpha a).arrow_.color = some (s.setAlpha a).appearance ∧
    (s.setAlpha a).axes_.color = some (s.setAlpha a).appearance := by
  simp [setAlpha, appearance, causeRender, propertyChanged, arrowSetColor, axesSetColor]

/-- The shape setter touches neither the stored appearance nor the colour on the handles. -/
theorem setShape_appearance (s : PoseDisplay) (shape : Int) :
    (s.setShape shape).appearance = s.appearance ∧
    (s.setShape shape).arrow_.color = s.arrow_.color ∧
    (s.setShape shape).axes_.color = s.axes_.color := by
  simp [setShape, appearance, causeRender, propertyChanged, setArrowVisible, setAxesVisible]

theorem new_appearance (sv : Services) (base : Display) (alpha0 : ℚ) (shape0 : Int) :
    (PoseDisplay.new sv base alpha0 shape0).arrow_.color =
      some (PoseDisplay.new sv base alpha0 shape0).appearance ∧
    (PoseDisplay.new sv base alpha0 shape0).axes_.color =
      some (PoseDisplay.new sv base alpha0 shape0).appearance := by
  unfold PoseDisplay.new
  exact setAlpha_appearance _ 1

theorem runAppearanceCalls_appearance (calls : List AppearanceCall) :
    ∀ s : PoseDisplay,
      s.arrow_.color = some s.appearance ∧ s.axes_.color = some s.appearance →
      (runAppearanceCalls s calls).arrow_.color = some (runAppearanceCalls s calls).appearance ∧
      (runAppearanceCalls s calls).axes_.color = some (runAppearanceCalls s calls).appearance := by
  induction calls with
  | nil => intro s hs; exact hs
  | cons call rest ih =>
    intro s hs
    apply ih
    cases call with
    | color c => exact setColor_appearance s c
    | alpha a => exact setAlpha_appearance s a
    | shape n =>
      have h := setShape_appearance s n
      show (s.setShape n).arrow_.color = some (s.setShape n).appearance ∧
        (s.setShape n).axes_.color = some (s.setShape n).appearance
      rw [h.1, h.2.1, h.2.2]
      exact hs

/-- C6: on the display the constructor returns, and after any run of `setColor`, `setAlpha`
and `setShape` calls on it, the colour last pushed to the arrow and the colour last pushed to
the axes are both the stored colour with the stored alpha; and from any state, `setAlpha` with
one half followed by `setShape` with any argument leaves the stored alpha and the alpha on
both handles at one half. -/
theorem appearance_shared_across_shapes (sv : Services) (base : Display) (alpha0 : ℚ)
    (shape0 : Int) (calls : List AppearanceCall) :
    ((runAppearanceCalls (PoseDisplay.new sv base alpha0 shape0) calls).arrow_.color =
        some (runAppearanceCalls (PoseDisplay.new sv base alpha0 shape0) calls).appearance ∧
      (runAppearanceCalls (PoseDisplay.new sv base alpha0 shape0) calls).axes_.color =
        some (runAppearanceCalls (PoseDisplay.new sv base alpha0 shape0) calls).appearance) ∧
    ∀ (s : PoseDisplay) (shape : Int),
      ((s.setAlpha (1 / 2)).setShape shape).alpha_ = 1 / 2 ∧
      ((s.setAlpha (1 / 2)).setShape shape).arrow_.color =
        some (s.color_.r_, s.color_.g_, s.color_.b_, 1 / 2) ∧
      ((s.setAlpha (1 / 2)).setShape shape).axes_.color =
        some (s.color_.r_, s.color_.g_, s.color_.b_, 1 / 2) := by
  refine ⟨runAppearanceCalls_appearance calls _ (new_appearance sv base alpha0 shape0), ?_⟩
  intro s shape
  have h := setShape_appearance (s.setAlpha (1 / 2)) shape
  have ha := setAlpha_appearance s (1 / 2)
  have hst : (s.setAlpha (1 / 2)).appearance = (s.color_.r_, s.color_.g_, s.color_.b_, 1 / 2) := by
    simp [setAlpha, appearance, causeRender, propertyChanged, arrowSetColor, axesSetColor]
  refine ⟨?_, ?_, ?_⟩
  · have := congrArg (fun p => p.2.2.2) (h.1.trans hst)
    exact this
  · rw [h.2.1, ha.1, hst]
  · rw [h.2.2, ha.2, hst]

/-! ### Dimensions -/

/-- The shape setter touches no dimension, stored or pushed. -/
theorem setShape_dims (s : PoseDisplay) (shape : Int) :
    (s.setShape shape).arrowDims = s.arrowDims ∧
    (s.setShape shape).axesDims = s.axesDims ∧
    (s.setShape shape).arrow_.dims = s.arrow_.dims ∧
    (s.setShape shape).axes_.dims = s.axes_.dims := by
  simp [setShape, arrowDims, axesDims, causeRender, propertyChanged, setArrowVisible,
    setAxesVisible]

/-- The axes setters touch no arrow dimension, stored or pushed. -/
theorem axes_setters_keep_arrow_dims (s : PoseDisplay) (v : ℚ) :
    (s.setAxesLength v).arrowDims = s.arrowDims ∧
    (s.setAxesLength v).arrow_.dims = s.arrow_.dims ∧
    (s.setAxesRadius v).arrowDims = s.arrowDims ∧
    (s.setAxesRadius v).arrow_.dims = s.arrow_.dims := by
  simp [setAxesLength, setAxesRadius, arrowDims, propertyChanged, axesSet]

/-- The arrow setters touch no axes dimension, stored or pushed. -/
theorem arrow_setters_keep_axes_dims (s : PoseDisplay) (v : ℚ) :
    ((s.setShaftLength v).axesDims = s.axesDims ∧
      (s.setShaftLength v).axes_.dims = s.axes_.dims) ∧
    ((s.setShaftRadius v).axesDims = s.axesDims ∧
      (s.setShaftRadius v).axes_.dims = s.axes_.dims) ∧
    ((s.setHeadLength v).axesDims = s.axesDims ∧
      (s.setHeadLength v).axes_.dims = s.axes_.dims) ∧
    ((s.setHeadRadius v).axesDims = s.axesDims ∧
      (s.setHeadRadius v).axes_.dims = s.axes_.dims) := by
  simp [setShaftLength, setShaftRadius, setHeadLength, setHeadRadius, axesDims,
    propertyChanged, arrowSet]

/-- C7: from any state, `setShape(Arrow); setShape(Axes); setShape(Arrow)` leaves the four
stored arrow dimensions, the two stored axes dimensions and the dimensions last pushed to
each handle as they were; a single `setShape` with any argument does the same; the axes
setters change no arrow dimension and the arrow setters change no axes dimension, stored or
pushed. -/
theorem dimensions_persist_across_shape_switches (s : PoseDisplay) :
    ((((s.setShape Arrow).setShape Axes).setShape Arrow).arrowDims = s.arrowDims ∧
      (((s.setShape Arrow).setShape Axes).setShape Arrow).axesDims = s.axesDims ∧
      (((s.setShape Arrow).setShape Axes).setShape Arrow).arrow_.dims = s.arrow_.dims ∧
      (((s.setShape Arrow).setShape Axes).setShape Arrow).axes_.dims = s.axes_.dims) ∧
    (∀ shape : Int,
      (s.setShape shape).arrowDims = s.arrowDims ∧
      (s.setShape shape).axesDims = s.axesDims ∧
      (s.setShape shape).arrow_.dims = s.arrow_.dims ∧
      (s.setShape shape).axes_.dims = s.axes_.dims) ∧
    (∀ v : ℚ,
      (s.setAxesLength v).arrowDims = s.arrowDims ∧
      (s.setAxesLength v).arrow_.dims = s.arrow_.dims ∧
      (s.setAxesRadius v).arrowDims = s.arrowDims ∧
      (s.setAxesRadius v).arrow_.dims = s.arrow_.dims) ∧
    (∀ v : ℚ,
      ((s.setShaftLength v).axesDims = s.axesDims ∧
        (s.setShaftLength v).axes_.dims = s.axes_.dims) ∧
      ((s.setShaftRadius v).axesDims = s.axesDims ∧
        (s.setShaftRadius v).axes_.dims = s.axes_.dims) ∧
      ((s.setHeadLength v).axesDims = s.axesDims ∧
        (s.setHeadLength v).axes_.dims = s.axes_.dims) ∧
      ((s.setHeadRadius v).axesDims = s.axesDims ∧
        (s.setHeadRadius v).axes_.dims = s.axes_.dims)) := by
  refine ⟨?_, setShape_dims s, axes_setters_keep_arrow_dims s, arrow_setters_keep_axes_dims s⟩
  have h1 := setShape_dims s Arrow
  have h2 := setShape_dims (s.setShape Arrow) Axes
  have h3 := setShape_dims ((s.setShape Arrow).setShape Axes) Arrow
  exact ⟨h3.1.trans (h2.1.trans h1.1), h3.2.1.trans (h2.2.1.trans h1.2.1),
    h3.2.2.1.trans (h2.2.2.1.trans h1.2.2.1), h3.2.2.2.trans (h2.2.2.2.trans h1.2.2.2)⟩

/-! ### Subscription across disable and enable -/

theorem setTopic_topic (s : PoseDisplay) (t : String) : (s.setTopic t).topic_ = t := by
  simp [setTopic, causeRender, propertyChanged, unsubscribe]

/-- After `setTopic` the display is subscribed to the new topic exactly when it is enabled. -/
theorem setTopic_sub (s : PoseDisplay) (t : String) :
    (s.setTopic t).sub_ = if s.enabled_ then some ⟨t, 5⟩ else none := by
  simp [setTopic, causeRender, propertyChanged, subscribe_sub, unsubscribe]

theorem disable_sub_topic (s : PoseDisplay) :
    s.disable.sub_ = none ∧ s.disable.topic_ = s.topic_ ∧
    s.disable.current_shape_ = s.current_shape_ ∧
    s.disable.arrow_.visible = false ∧ s.disable.axes_.visible = false := by
  simp [disable, onDisable, setArrowVisible, setAxesVisible, clear, unsubscribe]

theorem enable_sub_topic (s : PoseDisplay) :
    s.enable.sub_ = some ⟨s.topic_, 5⟩ ∧ s.enable.topic_ = s.topic_ ∧
    s.enable.current_shape_ = s.current_shape_ := by
  simp [enable, onEnable, subscribe_sub]

theorem enable_visible (s : PoseDisplay) :
    s.enable.arrow_.visible = (decide (s.current_shape_ = Arrow) || s.arrow_.visible) ∧
    s.enable.axes_.visible =
      ((!decide (s.current_shape_ = Arrow) && decide (s.current_shape_ = Axes))
        || s.axes_.visible) := by
  have h := showCurrentShape_visible { s with enabled_ := true }
  simp only [enable, onEnable, subscribe_arrow, subscribe_axes]
  exact h

/-- C8: whatever the state `setTopic(t)` is called in, enabled or not, after the following
disable the display is not subscribed and still stores `t`, and after the enable that
follows it is subscribed once, to `t` with queue depth 5, still stores `t`, and shows the
arrow exactly when the current shape is Arrow and the axes exactly when it is Axes. -/
theorem topic_survives_disable_enable (s : PoseDisplay) (t : String) :
    ((s.setTopic t).sub_ = if s.enabled_ then some ⟨t, 5⟩ else none) ∧
    (s.setTopic t).disable.sub_ = none ∧
    (s.setTopic t).disable.topic_ = t ∧
    (s.setTopic t).disable.enable.sub_ = some ⟨t, 5⟩ ∧
    (s.setTopic t).disable.enable.topic_ = t ∧
    ((s.setTopic t).disable.enable.arrow_.visible = true ↔
      (s.setTopic t).disable.enable.current_shape_ = Arrow) ∧
    ((s.setTopic t).disable.enable.axes_.visible = true ↔
      (s.setTopic t).disable.enable.current_shape_ = Axes) := by
  have hd := disable_sub_topic (s.setTopic t)
  have he := enable_sub_topic (s.setTopic t).disable
  have hv := enable_visible (s.setTopic t).disable
  have htopic : (s.setTopic t).disable.topic_ = t := hd.2.1.trans (setTopic_topic s t)
  refine ⟨setTopic_sub s t, hd.1, htopic, ?_, he.2.1.trans htopic, ?_, ?_⟩
  · rw [he.1, htopic]
  · rw [hv.1, he.2.2, hd.2.2.2.1]; simp
  · rw [hv.2, he.2.2, hd.2.2.2.2]
    simp only [Bool.or_false, Bool.and_eq_true, Bool.not_eq_true', decide_eq_false_iff_not,
      decide_eq_true_eq]
    constructor
    · exact fun h => h.2
    · intro h
      exact ⟨fun h2 => Arrow_ne_Axes (h2.symm.trans h), h⟩

/-! ### The inbox -/

/-- With nothing held, the filter has nothing to hand to the callback. -/
theorem deliver_none_of_empty (sv : Services) (s : PoseDisplay)
    (h : s.tf_filter_.messages = []) : s.deliver sv = none := by
  unfold deliver
  rw [h]

/-- The filter hands over only what it holds: a delivery is the callback run on the oldest
held message. -/
theorem deliver_some (sv : Services) (s t : PoseDisplay) (h : s.deliver sv = some t) :
    ∃ m rest, s.tf_filter_.messages = m :: rest ∧
      t = incomingMessage sv { s with tf_filter_ := { s.tf_filter_ with messages := rest } } m := by
  unfold deliver at h
  split at h
  · cases h
  · rename_i m rest hm
    exact ⟨m, rest, hm, (Option.some.inj h).symm⟩

theorem incomingMessage_tf_filter (sv : Services) (s : PoseDisplay) (m : PoseStamped) :
    (s.incomingMessage sv m).tf_filter_ = s.tf_filter_ := by
  simp only [incomingMessage, causeRender]
  split <;> rfl

/-- A member function either leaves the held messages alone or drops them all. -/
theorem Call.run_messages (sv : Services) (s : PoseDisplay) (c : Call) :
    (c.run sv s).tf_filter_.messages = s.tf_filter_.messages ∨
    (c.run sv s).tf_filter_.messages = [] := by
  cases c with
  | setTopic topic =>
    left
    simp [Call.run, PoseDisplay.setTopic, causeRender, propertyChanged, unsubscribe]
  | setColor c => exact Or.inl rfl
  | setAlpha a => exact Or.inl rfl
  | setHeadRadius v => exact Or.inl rfl
  | setHeadLength v => exact Or.inl rfl
  | setShaftRadius v => exact Or.inl rfl
  | setShaftLength v => exact Or.inl rfl
  | setAxesRadius v => exact Or.inl rfl
  | setAxesLength v => exact Or.inl rfl
  | setShape n =>
    left
    simp only [Call.run, PoseDisplay.setShape, causeRender]
    rw [createShapeProperties_frame]
    simp only [propertyChanged]
    rw [showCurrentShape_frame]
    rfl
  | enable =>
    left
    simp only [Call.run, PoseDisplay.enable, onEnable, subscribe_tf_filter]
    rw [showCurrentShape_frame]
  | disable => exact Or.inr rfl
  | setFixedFrame frame => exact Or.inr rfl
  | targetFrameChanged => exact Or.inl rfl
  | update wall_dt ros_dt => exact Or.inl rfl
  | incomingMessage m =>
    left
    simp only [Call.run, incomingMessage_tf_filter]
  | reset => exact Or.inr rfl

theorem arrive_messages_sublist (s : PoseDisplay) (m : PoseStamped) :
    (s.arrive m).tf_filter_.messages.Sublist (s.tf_filter_.messages ++ [m]) := by
  unfold arrive
  split
  · exact List.sublist_append_left _ _
  · simp only []
    split
    · exact List.drop_sublist _ _
    · exact List.Sublist.refl _

/-- Whatever happens, the messages the filter hands over are, in order, among those it held
at the start followed by those that arrived since. -/
theorem runInbox_delivered_sublist (sv : Services) (events : List InboxEvent) :
    ∀ s : PoseDisplay,
      (runInbox sv s events).2.Sublist (s.tf_filter_.messages ++ arrivals events) := by
  induction events with
  | nil => intro s; exact List.nil_sublist _
  | cons e rest ih =>
    intro s
    cases e with
    | arrive m =>
      simp only [runInbox, arrivals]
      refine (ih (s.arrive m)).trans ?_
      have h := (arrive_messages_sublist s m).append_right (arrivals rest)
      simpa using h
    | deliver =>
      simp only [runInbox, arrivals]
      split
      · rename_i m held t hm ht
        obtain ⟨m2, rest2, hm2, ht2⟩ := deliver_some sv s t ht
        rw [hm] at hm2
        obtain ⟨rfl, rfl⟩ := List.cons.inj hm2
        have hq : t.tf_filter_.messages = held := by
          rw [ht2, incomingMessage_tf_filter]
        have h := ih t
        rw [hq] at h
        rw [hm]
        exact h.cons₂ m
      · exact ih s
    | call c =>
      simp only [runInbox, arrivals]
      refine (ih (c.run sv s)).trans ?_
      rcases Call.run_messages sv s c with h | h
      · rw [h]
      · rw [h]
        exact List.sublist_append_right _ _

/-- C9: after a change of the fixed frame, whatever the filter held, it holds no message,
its target frame is the new fixed frame, it has nothing to deliver to `incomingMessage`, and
whatever happens next, the messages it delivers are, in order, among those that arrive after
the change; `fixedFrameChanged` alone, `onDisable` and `reset` empty the filter in the same
way; `targetFrameChanged` returns the display as it was, filter included. -/
theorem fixed_frame_change_discards_buffered (sv : Services) (s : PoseDisplay)
    (frame : String) :
    ((s.setFixedFrame frame).tf_filter_.messages = [] ∧
      (s.setFixedFrame frame).tf_filter_.target_frame = frame ∧
      (s.setFixedFrame frame).fixed_frame_ = frame ∧
      (s.setFixedFrame frame).deliver sv = none ∧
      ∀ events : List InboxEvent,
        (runInbox sv (s.setFixedFrame frame) events).2.Sublist (arrivals events)) ∧
    (s.fixedFrameChanged.tf_filter_.messages = [] ∧
      s.fixedFrameChanged.tf_filter_.target_frame = s.fixed_frame_ ∧
      s.fixedFrameChanged.deliver sv = none) ∧
    (s.onDisable.tf_filter_.messages = [] ∧ s.onDisable.deliver sv = none) ∧
    (s.reset.tf_filter_.messages = [] ∧ s.reset.deliver sv = none) ∧
    s.targetFrameChanged = s ∧
    s.targetFrameChanged.tf_filter_ = s.tf_filter_ := by
  have h1 : (s.setFixedFrame frame).tf_filter_.messages = [] := rfl
  have h2 : s.fixedFrameChanged.tf_filter_.messages = [] := rfl
  have h3 : s.onDisable.tf_filter_.messages = [] := rfl
  have h4 : s.reset.tf_filter_.messages = [] := rfl
  have h5 : ∀ events : List InboxEvent,
      (runInbox sv (s.setFixedFrame frame) events).2.Sublist (arrivals events) := by
    intro events
    have h := runInbox_delivered_sublist sv events (s.setFixedFrame frame)
    rw [h1] at h
    exact h
  exact ⟨⟨h1, rfl, rfl, deliver_none_of_empty sv _ h1, h5⟩,
    ⟨h2, rfl, deliver_none_of_empty sv _ h2⟩,
    ⟨h3, deliver_none_of_empty sv _ h3⟩,
    ⟨h4, deliver_none_of_empty sv _ h4⟩, rfl, rfl⟩

end rviz
